import Mathlib

/-!
Verification development for the car-pricing-api NestJS repository.

The definitions below are a shallow embedding of the hard core of the
repository: the price-estimation query (ReportsService.createEstimate),
the credential hashing utilities (hashPassword / verifyPassword in
common/utils/hash.util.ts), the session-based AuthGuard, the
CurrentUserInterceptor identity resolver backed by UsersService.findOne,
AuthService.signin / signup, the SerializeInterceptor field projection,
and the UsersController register handler.

Modelling conventions:
  - JavaScript numbers carrying money, coordinates and mileage become Rat
    (the component imposes no rounding); ids, years and timestamps become
    Int.  Dates are modelled as integer timestamps supplied explicitly.
  - The scrypt key-derivation function is an explicit parameter
    (kdf : String -> String -> List Nat) returning the derived key as a
    byte list; randomness (the fresh salt) and store-assigned ids are
    likewise explicit parameters.
  - Fallible code returns Except HttpError; thrown Nest exceptions become
    the error branch.
  - Console output is reified as an explicit list of log entries so that
    logging behaviour is part of the function's result.
-/

namespace CarPricing

/-! ## Estimation engine (ReportsService.createEstimate) -/

/-- A Report row as stored by the Record Store (report.entity). -/
structure Report where
  price : Rat
  make : String
  model : String
  year : Int
  lng : Rat
  lat : Rat
  mileage : Rat
  approved : Bool
deriving DecidableEq, Repr

/-- The estimation query profile (GetEstimateDto). -/
structure GetEstimateDto where
  make : String
  model : String
  year : Int
  lng : Rat
  lat : Rat
  mileage : Rat
deriving DecidableEq, Repr

/-- The WHERE clauses of the createEstimate query builder:
make and model equality, longitude and latitude windows
(lng - :lng BETWEEN -5 AND 5, lat - :lat BETWEEN -5 AND 5),
year window (year - :year BETWEEN -3 AND 3), and approved IS TRUE. -/
def matchesEstimateFilters (query : GetEstimateDto) (report : Report) : Bool :=
  report.make == query.make && report.model == query.model &&
  decide (-5 ≤ report.lng - query.lng) && decide (report.lng - query.lng ≤ 5) &&
  decide (-5 ≤ report.lat - query.lat) && decide (report.lat - query.lat ≤ 5) &&
  decide (-3 ≤ report.year - query.year) && decide (report.year - query.year ≤ 3) &&
  report.approved

/-- ReportsService.createEstimate: the SQL query
SELECT AVG(price) ... WHERE (filters) ORDER BY mileage - :mileage DESC LIMIT 3.
Under SQL semantics the aggregate SELECT collapses the filtered rows to a
single result row before ORDER BY and LIMIT apply, so the ORDER BY and the
LIMIT 3 act on that one aggregated row and cannot restrict the set the
average ranges over: the query returns the mean of price over every report
passing the WHERE clauses, and NULL (absent) when no report passes. -/
def createEstimate (reports : List Report) (query : GetEstimateDto) : Option Rat :=
  let rows := reports.filter (matchesEstimateFilters query)
  if rows.isEmpty then none
  else some ((rows.map Report.price).sum / (rows.length : Rat))

/-- Absolute mileage distance used by the specification's ordering step. -/
def specOrderKey (query : GetEstimateDto) (report : Report) : Rat :=
  |report.mileage - query.mileage|

/-- Insert a report into a list sorted descending by the key (stable:
an incoming report goes after existing reports with an equal key). -/
def insertDescBy (key : Report → Rat) (r : Report) : List Report → List Report
  | [] => [r]
  | x :: xs => if key x < key r then r :: x :: xs else x :: insertDescBy key r xs

/-- Stable insertion sort, descending by the key. -/
def sortDescBy (key : Report → Rat) : List Report → List Report
  | [] => []
  | x :: xs => insertDescBy key x (sortDescBy key xs)

/-- Modelled from the spec's words (section 4.6), for comparison with
createEstimate: filter, order descending by the absolute mileage
difference, take at most the first 3, and return the mean of price over
that subset (absent when the filtered set is empty). -/
def specEstimate (reports : List Report) (query : GetEstimateDto) : Option Rat :=
  let survivors := reports.filter (matchesEstimateFilters query)
  let top3 := (sortDescBy (specOrderKey query) survivors).take 3
  if top3.isEmpty then none
  else some ((top3.map Report.price).sum / (top3.length : Rat))

/-- Four approved reports that all pass the filters for the query below. -/
def c1Reports : List Report :=
  [ { price := 0, make := "Honda", model := "Civic", year := 2020,
      lng := 0, lat := 0, mileage := 1000, approved := true },
    { price := 0, make := "Honda", model := "Civic", year := 2020,
      lng := 0, lat := 0, mileage := 2000, approved := true },
    { price := 0, make := "Honda", model := "Civic", year := 2020,
      lng := 0, lat := 0, mileage := 3000, approved := true },
    { price := 400, make := "Honda", model := "Civic", year := 2020,
      lng := 0, lat := 0, mileage := 0, approved := true } ]

/-- The query profile for the estimation counterexample. -/
def c1Query : GetEstimateDto :=
  { make := "Honda", model := "Civic", year := 2020,
    lng := 0, lat := 0, mileage := 0 }

/-- C1: the code averages over all four surviving reports (mean 100),
while the claimed first-3-by-furthest-mileage subset has mean 0: the
ORDER BY / LIMIT 3 clauses of the aggregate SQL query do not restrict the
average, contradicting the claim (and the code's own Top 3 comment). -/
theorem C1_code_averages_all_filtered_rows :
    createEstimate c1Reports c1Query = some 100 ∧
    specEstimate c1Reports c1Query = some 0 ∧
    createEstimate c1Reports c1Query ≠ specEstimate c1Reports c1Query := by
  have hcode : createEstimate c1Reports c1Query = some 100 := by
    simp [createEstimate, c1Reports, c1Query, matchesEstimateFilters]
    norm_num
  have hspec : specEstimate c1Reports c1Query = some 0 := by
    simp [specEstimate, c1Reports, c1Query, matchesEstimateFilters,
      sortDescBy, insertDescBy, specOrderKey]
    norm_num
    exact List.cons_ne_nil _ _
  refine ⟨hcode, hspec, ?_⟩
  rw [hcode, hspec]
  intro h
  exact absurd (Option.some.inj h) (by norm_num)

/-- C6: when no report passes the filters, createEstimate returns absent
(none), not the number zero. -/
theorem C6_empty_filtered_set_returns_absent
    (reports : List Report) (query : GetEstimateDto)
    (h : reports.filter (matchesEstimateFilters query) = []) :
    createEstimate reports query = none := by
  simp [createEstimate, h]

/-- Witness for C6: a query whose make matches no report yields none. -/
theorem C6_empty_filtered_set_returns_absent_witness :
    createEstimate c1Reports
      { make := "Toyota", model := "Camry", year := 2020,
        lng := 0, lat := 0, mileage := 0 } = none :=
  C6_empty_filtered_set_returns_absent _ _ (by decide)

/-- A report passing the estimate filters is approved. -/
theorem approved_of_matches (query : GetEstimateDto) (r : Report)
    (h : matchesEstimateFilters query r = true) : r.approved = true := by
  unfold matchesEstimateFilters at h
  simp only [Bool.and_eq_true] at h
  exact h.2

/-- Dropping unapproved reports first does not change the filtered rows. -/
theorem filter_matches_of_filter_approved
    (query : GetEstimateDto) (reports : List Report) :
    (reports.filter (fun r => r.approved)).filter (matchesEstimateFilters query)
      = reports.filter (matchesEstimateFilters query) := by
  induction reports with
  | nil => rfl
  | cons r rs ih =>
    by_cases happ : r.approved = true
    · by_cases hm : matchesEstimateFilters query r = true
      · simp [List.filter_cons, happ, hm, ih]
      · simp [List.filter_cons, happ, hm, ih]
    · have hm : matchesEstimateFilters query r = false := by
        cases hmv : matchesEstimateFilters query r with
        | false => rfl
        | true => exact absurd (approved_of_matches query r hmv) happ
      simp [List.filter_cons, happ, hm, ih]

/-- C8: an unapproved report never contributes to an estimate — the
estimate over any report set equals the estimate over its approved
subset, for every query profile. -/
theorem C8_unapproved_reports_never_contribute
    (reports : List Report) (query : GetEstimateDto) :
    createEstimate reports query
      = createEstimate (reports.filter (fun r => r.approved)) query := by
  unfold createEstimate
  rw [filter_matches_of_filter_approved]

/-! ## Credential hasher (common/utils/hash.util.ts) -/

/-- Value of one hexadecimal digit character, if any. -/
def hexDigitVal (c : Char) : Option Nat :=
  if '0' ≤ c ∧ c ≤ '9' then some (c.toNat - '0'.toNat)
  else if 'a' ≤ c ∧ c ≤ 'f' then some (c.toNat - 'a'.toNat + 10)
  else if 'A' ≤ c ∧ c ≤ 'F' then some (c.toNat - 'A'.toNat + 10)
  else none

/-- Node Buffer.from(s, hex): decode consecutive pairs of hex digits into
bytes, stopping at the first incomplete or invalid pair. -/
def hexDecodeChars : List Char → List Nat
  | c1 :: c2 :: rest =>
    match hexDigitVal c1, hexDigitVal c2 with
    | some hi, some lo => (16 * hi + lo) :: hexDecodeChars rest
    | _, _ => []
  | _ => []

/-- Buffer.from over a hex string, yielding the byte list. -/
def bufferFromHex (s : String) : List Nat :=
  hexDecodeChars s.data

/-- Lowercase hex digit for a value below 16. -/
def hexDigitChar (n : Nat) : Char :=
  if n < 10 then Char.ofNat ('0'.toNat + n)
  else Char.ofNat ('a'.toNat + (n - 10))

/-- Node buffer.toString(hex): two lowercase hex digits per byte. -/
def hexEncode (bytes : List Nat) : String :=
  String.mk ((bytes.map fun b => [hexDigitChar (b / 16 % 16), hexDigitChar (b % 16)]).flatten)

/-- Split a character list on the dot character, keeping empty segments,
as the JavaScript string split with a one-character separator does. -/
def splitCharsOnDot : List Char → List (List Char)
  | [] => [[]]
  | c :: rest =>
    match splitCharsOnDot rest with
    | [] => [[]]
    | seg :: segs => if c = '.' then [] :: seg :: segs else (c :: seg) :: segs

/-- The storedPassword.split call of the source: split on the dot. -/
def splitOnDot (s : String) : List String :=
  (splitCharsOnDot s.data).map String.mk

/-- One console line emitted by the hash utility: the fixed label of the
console.log / console.error call and the stringified payload argument. -/
structure LogEntry where
  label : String
  payload : String
deriving DecidableEq, Repr

/-- hashPassword: fresh random salt (here an explicit parameter, 8 random
bytes rendered as hex in the source), scrypt-derived 32-byte key (the kdf
parameter), result salt ++ dot ++ hex(derivedKey). -/
def hashPassword (kdf : String → String → List Nat) (salt password : String) :
    String :=
  salt ++ "." ++ hexEncode (kdf password salt)

/-- verifyPassword from common/utils/hash.util.ts. The returned pair is
(boolean result, console output in order). Splitting mirrors the source's
destructuring of storedPassword.split on the dot: the first segment is the
salt, the second the stored hash, each falsy (empty or missing) triggering
the early false return. The kdf parameter stands for the awaited
scrypt(suppliedPassword, salt, 32). The function in src/unnamed/part_003
is the same minus the console calls. -/
def verifyPassword (kdf : String → String → List Nat)
    (storedPassword suppliedPassword : String) : Bool × List LogEntry :=
  let parts := splitOnDot storedPassword
  let salt := parts.headD ""
  let storedHashedPassword := (parts.drop 1).headD ""
  if salt = "" ∨ storedHashedPassword = "" then
    (false, [⟨"Invalid stored password format:", storedPassword⟩])
  else
    let suppliedHashedPassword := kdf suppliedPassword salt
    let storedBuffer := bufferFromHex storedHashedPassword
    let logs :=
      [ (⟨"Salt:", salt⟩ : LogEntry),
        ⟨"Stored Hash:", storedHashedPassword⟩,
        ⟨"Supplied Hash:", hexEncode suppliedHashedPassword⟩ ]
    if storedBuffer.length ≠ suppliedHashedPassword.length then
      (false, logs ++ [⟨"Length mismatch", ""⟩])
    else
      let isMatch := storedBuffer == suppliedHashedPassword
      (isMatch, logs ++ [⟨"Match:", toString isMatch⟩])

/-- A stored encoded credential is malformed in the sense of the claim:
no delimiter at all, or an empty salt segment, or a missing or empty hash
segment. -/
def malformedEncoding (s : String) : Bool :=
  let parts := splitOnDot s
  decide (parts.length < 2) || parts.headD "" == "" || (parts.drop 1).headD "" == ""

/-- C7: on a malformed stored credential (no delimiter, or missing salt or
hash segment) verifyPassword returns false, for every key-derivation
function and every candidate password; as a total function it throws
nothing. -/
theorem C7_malformed_encoded_fails_closed
    (kdf : String → String → List Nat) (stored supplied : String)
    (h : malformedEncoding stored = true) :
    (verifyPassword kdf stored supplied).1 = false := by
  unfold verifyPassword
  unfold malformedEncoding at h
  simp only [Bool.or_eq_true, decide_eq_true_eq, beq_iff_eq] at h
  rcases h with (h | h) | h
  · have hnil : (splitOnDot stored).drop 1 = [] := by
      apply List.drop_eq_nil_of_le
      omega
    have h1 : (splitOnDot stored)[1]?.getD "" = "" := by
      have : (splitOnDot stored)[1]? = none := by
        rw [← List.head?_drop, hnil]
        rfl
      rw [this]
      rfl
    simp [h1]
  · have h0 : (splitOnDot stored).head?.getD "" = "" := by simpa using h
    simp [h0]
  · have h1 : (splitOnDot stored)[1]?.getD "" = "" := by
      simpa [List.head?_drop] using h
    simp [h1]

/-- Witness for C7: a delimiter-free stored string is rejected. -/
theorem C7_malformed_encoded_fails_closed_witness :
    malformedEncoding "abcdef" = true ∧
    (verifyPassword (fun _ _ => []) "abcdef" "candidate").1 = false :=
  ⟨by decide, C7_malformed_encoded_fails_closed (fun _ _ => []) "abcdef" "candidate" (by decide)⟩

/-- A key-derivation oracle used for the logging evaluation. -/
def kdfZero : String → String → List Nat := fun _ _ => [0]

/-- C4: contrary to the claim (and to the version of the utility the
repository's README documents), verifyPassword writes credential material
to the console: at the stored credential ab.00 with a kdf deriving the
byte 0, the log contains the salt, the stored hash segment, and the hex
of the derived key. -/
theorem C4_verify_logs_credential_material :
    (verifyPassword kdfZero "ab.00" "candidate").2 =
      [ ⟨"Salt:", "ab"⟩, ⟨"Stored Hash:", "00"⟩,
        ⟨"Supplied Hash:", "00"⟩, ⟨"Match:", "true"⟩ ] ∧
    (⟨"Salt:", "ab"⟩ : LogEntry) ∈ (verifyPassword kdfZero "ab.00" "candidate").2 := by
  refine ⟨by decide, by decide⟩

/-! ## Users, sessions, guard and identity resolver -/

/-- A User row as stored by the Record Store (user.entity): the password
field holds the encoded salt-dot-hash credential, createdAt and updatedAt
are integer timestamps. -/
structure StoredUser where
  id : Int
  name : String
  email : String
  password : String
  isAdmin : Bool
  createdAt : Int
  updatedAt : Int
deriving DecidableEq, Repr

/-- The cookie session payload (SessionDto): a single userId, where the
value 0 is the JavaScript-falsy sentinel meaning no identity. -/
structure SessionData where
  userId : Int
deriving DecidableEq, Repr

/-- The per-request context the framework hands to guards and
interceptors: the decoded session (none when no cookie) and the
currentUser field the CurrentUserInterceptor may attach. -/
structure RequestCtx where
  session : Option SessionData
  currentUser : Option StoredUser
deriving DecidableEq, Repr

/-- The Nest exceptions thrown by the modelled handlers. -/
inductive HttpError where
  | forbidden (message : String)
  | badRequest (message : String)
  | notFound (message : String)
deriving DecidableEq, Repr

/-- UsersService.findByEmail: repo.findOne on the email column. -/
def findByEmail (store : List StoredUser) (email : String) : Option StoredUser :=
  store.find? (fun u => u.email == email)

/-- UsersService.findOne: repo.findOne on the id, and when a user is
found, a write-back of updatedAt := now followed by repo.save — the save
replaces the row with the matching primary key. Returns the (touched)
user together with the store after the save. -/
def findOne (store : List StoredUser) (now : Int) (id : Int) :
    Option StoredUser × List StoredUser :=
  match store.find? (fun u => u.id == id) with
  | none => (none, store)
  | some user =>
    let touched := { user with updatedAt := now }
    (some touched, store.map (fun v => if v.id == touched.id then touched else v))

/-- AuthGuard.canActivate (common/guards/auth.guard): throws
ForbiddenException when the request has no session or a falsy
session.userId, else returns true. It reads only the session. -/
def authGuardCanActivate (request : RequestCtx) : Except HttpError Bool :=
  match request.session with
  | none => .error (.forbidden "Forbidden resource")
  | some s =>
    if s.userId = 0 then .error (.forbidden "Forbidden resource")
    else .ok true

/-- CurrentUserInterceptor.intercept: when the request has a session with
a truthy userId, look the user up through UsersService.findOne and attach
it as request.currentUser when found. Returns the updated request context
and the store after the lookup (findOne writes updatedAt on a hit). -/
def currentUserIntercept (store : List StoredUser) (now : Int)
    (request : RequestCtx) : RequestCtx × List StoredUser :=
  match request.session with
  | none => (request, store)
  | some s =>
    if s.userId = 0 then (request, store)
    else
      match findOne store now s.userId with
      | (none, store2) => (request, store2)
      | (some user, store2) => ({ request with currentUser := some user }, store2)

/-- A request carrying a session whose userId 5 matches no stored user. -/
def staleRequest : RequestCtx :=
  { session := some { userId := 5 }, currentUser := none }

/-- C2 counterexample: against an empty Record Store, the Identity
Resolver produces no User for the stale session, yet AuthGuard allows the
request — the guard checks only that session.userId is truthy and never
consults the store, refuting the claimed iff. -/
theorem C2_guard_allows_unresolvable_session :
    authGuardCanActivate staleRequest = .ok true ∧
    (currentUserIntercept ([] : List StoredUser) 0 staleRequest).1.currentUser = none := by
  refine ⟨rfl, rfl⟩

/-- C2 amended: AuthGuard allows a request exactly when it carries a
session with a nonzero userId, and its verdict is independent of the
resolved currentUser (hence of the Record Store); otherwise it denies
with ForbiddenException. -/
theorem C2_guard_decides_on_session_only (request : RequestCtx) :
    (authGuardCanActivate request = .ok true ↔
      ∃ s, request.session = some s ∧ s.userId ≠ 0) ∧
    (∀ cu, authGuardCanActivate { request with currentUser := cu }
      = authGuardCanActivate request) ∧
    (authGuardCanActivate request = .ok true ∨
      authGuardCanActivate request = .error (.forbidden "Forbidden resource")) := by
  refine ⟨?_, ?_, ?_⟩
  · constructor
    · intro h
      match hs : request.session with
      | none => simp [authGuardCanActivate, hs] at h
      | some s =>
        refine ⟨s, rfl, ?_⟩
        intro h0
        simp [authGuardCanActivate, hs, h0] at h
    · rintro ⟨s, hs, h0⟩
      simp [authGuardCanActivate, hs, h0]
  · intro cu
    simp [authGuardCanActivate]
  · match hs : request.session with
    | none => right; simp [authGuardCanActivate, hs]
    | some s =>
      by_cases h0 : s.userId = 0
      · right; simp [authGuardCanActivate, hs, h0]
      · left; simp [authGuardCanActivate, hs, h0]

/-- Witness for C2 amended: the iff applied at the stale request. -/
theorem C2_guard_decides_on_session_only_witness :
    authGuardCanActivate staleRequest = .ok true :=
  (C2_guard_decides_on_session_only staleRequest).1.mpr
    ⟨{ userId := 5 }, rfl, by decide⟩

/-- A stored user shared by the concrete evaluations below. -/
def aliceUser : StoredUser :=
  { id := 1, name := "alice", email := "alice@example.com",
    password := "ab.00", isAdmin := false, createdAt := 50, updatedAt := 100 }

/-- A request whose session carries aliceUser's id. -/
def aliceRequest : RequestCtx :=
  { session := some { userId := 1 }, currentUser := none }

/-- C5 counterexample: resolving alice's identity at time 200 rewrites
her stored updatedAt from 100 to 200, so the Record Store is not left
exactly as it was before resolution. -/
theorem C5_resolution_writes_updatedAt :
    (currentUserIntercept [aliceUser] 200 aliceRequest).2 =
      [{ aliceUser with updatedAt := 200 }] ∧
    (currentUserIntercept [aliceUser] 200 aliceRequest).2 ≠ [aliceUser] := by
  refine ⟨rfl, by decide⟩

/-- C5 amended: under the primary-key invariant (pairwise distinct ids),
identity resolution maps each stored record either to itself or to the
same record with updatedAt set to the resolution time — the resolved
user's updatedAt is written via findOne's touch-on-read, and no other
field or record changes. -/
theorem C5_resolution_touch_frame (store : List StoredUser) (now : Int)
    (request : RequestCtx)
    (hids : store.Pairwise (fun a b => a.id ≠ b.id)) :
    ∃ f : StoredUser → StoredUser,
      (∀ u, f u = u ∨ f u = { u with updatedAt := now }) ∧
      (currentUserIntercept store now request).2 = store.map f := by
  match hs : request.session with
  | none =>
    exact ⟨id, fun u => Or.inl rfl, by simp [currentUserIntercept, hs]⟩
  | some s =>
    by_cases h0 : s.userId = 0
    · exact ⟨id, fun u => Or.inl rfl, by simp [currentUserIntercept, hs, h0]⟩
    · match hfind : store.find? (fun u => u.id == s.userId) with
      | none =>
        refine ⟨id, fun u => Or.inl rfl, ?_⟩
        simp [currentUserIntercept, hs, h0, findOne, hfind]
      | some u =>
        refine ⟨fun v => if v.id == s.userId then { v with updatedAt := now } else v,
          ?_, ?_⟩
        · intro v
          by_cases hv : (v.id == s.userId) = true
          · right; simp [hv]
          · left; simp [hv]
        · have hu_mem : u ∈ store := List.mem_of_find?_eq_some hfind
          have huid : u.id = s.userId := by
            simpa using List.find?_some hfind
          have hsnd : (currentUserIntercept store now request).2 =
              store.map (fun v =>
                if v.id == u.id then { u with updatedAt := now } else v) := by
            simp [currentUserIntercept, hs, h0, findOne, hfind]
          rw [hsnd]
          apply List.map_congr_left
          intro v hv
          by_cases hveq : v.id = s.userId
          · have hvu : v = u := by
              by_contra hne
              exact (hids.forall (fun _ _ h => h.symm) hv hu_mem hne)
                (by rw [hveq, huid])
            subst hvu
            simp [huid, hveq]
          · have hne1 : (v.id == u.id) = false := by
              simp [huid, hveq]
            have hne2 : (v.id == s.userId) = false := by
              simp [hveq]
            simp [hne1, hne2]

/-- Witness for C5 amended: the frame theorem applied to the singleton
store holding alice. -/
theorem C5_resolution_touch_frame_witness :
    ∃ f : StoredUser → StoredUser,
      (∀ u, f u = u ∨ f u = { u with updatedAt := 200 }) ∧
      (currentUserIntercept [aliceUser] 200 aliceRequest).2 = [aliceUser].map f :=
  C5_resolution_touch_frame [aliceUser] 200 aliceRequest (by simp)

/-! ## AuthService.signin (login attempts) -/

/-- The login request body (LoginUserDto). -/
structure LoginUserDto where
  email : String
  password : String
deriving DecidableEq, Repr

/-- AuthService.signin: look the user up by email and throw
NotFoundException when absent; verify the supplied password against the
stored encoded credential and throw BadRequestException when the
verification fails; otherwise return the user. -/
def signin (kdf : String → String → List Nat) (store : List StoredUser)
    (data : LoginUserDto) : Except HttpError StoredUser :=
  match findByEmail store data.email with
  | none => .error (.notFound "User not found")
  | some user =>
    if (verifyPassword kdf user.password data.password).1 then .ok user
    else .error (.badRequest "Invalid password")

/-- A key-derivation oracle under which only the password "correct"
derives the stored byte of aliceUser's credential. -/
def kdfOracle : String → String → List Nat :=
  fun password _ => if password = "correct" then [0] else [1]

/-- C3 counterexample: a wrong password for alice's existing account
yields BadRequestException with message Invalid password, while a login
for an unregistered email yields NotFoundException with message User not
found — different error class and different message, so the endpoint
distinguishes registered from unregistered emails. -/
theorem C3_wrong_password_and_unknown_email_differ :
    signin kdfOracle [aliceUser]
        { email := "alice@example.com", password := "wrong" }
      = .error (.badRequest "Invalid password") ∧
    signin kdfOracle [aliceUser]
        { email := "ghost@example.com", password := "wrong" }
      = .error (.notFound "User not found") ∧
    HttpError.badRequest "Invalid password" ≠ HttpError.notFound "User not found" := by
  refine ⟨rfl, rfl, by decide⟩

/-- C3 amended: the two login failures are distinguishable — an unknown
email produces the NotFoundException User not found, while a failed
verification against an existing user produces the BadRequestException
Invalid password. -/
theorem C3_signin_error_characterization
    (kdf : String → String → List Nat) (store : List StoredUser)
    (data : LoginUserDto) :
    (findByEmail store data.email = none →
      signin kdf store data = .error (.notFound "User not found")) ∧
    (∀ u, findByEmail store data.email = some u →
      (verifyPassword kdf u.password data.password).1 = false →
      signin kdf store data = .error (.badRequest "Invalid password")) := by
  constructor
  · intro h
    simp [signin, h]
  · intro u hu hv
    simp [signin, hu, hv]

/-- Witness for C3 amended: both branches evaluated concretely. -/
theorem C3_signin_error_characterization_witness :
    signin kdfOracle [aliceUser]
        { email := "alice@example.com", password := "wrong" }
      = .error (.badRequest "Invalid password") ∧
    signin kdfOracle [aliceUser]
        { email := "ghost@example.com", password := "wrong" }
      = .error (.notFound "User not found") :=
  ⟨(C3_signin_error_characterization kdfOracle [aliceUser]
      { email := "alice@example.com", password := "wrong" }).2 aliceUser rfl rfl,
   (C3_signin_error_characterization kdfOracle [aliceUser]
      { email := "ghost@example.com", password := "wrong" }).1 rfl⟩

/-! ## Field projector (SerializeInterceptor with plainToClass) -/

/-- The plainToClass call of SerializeInterceptor.intercept, with
excludeExtraneousValues set: the produced instance carries exactly the
DTO's exposed keys, each bound to the source field of that name when the
source has it and left undefined (none) otherwise. Every field of the
source absent from the exposed keys is dropped. The call builds a fresh
value — the interceptor then spreads it into a fresh envelope, so the
handler's original value is never modified (the embedding is pure for the
same reason). -/
def plainToClass {α : Type} (exposedKeys : List String)
    (source : List (String × α)) : List (String × Option α) :=
  exposedKeys.map fun k => (k, (source.find? (fun p => p.1 == k)).map Prod.snd)

/-- The fields of UserDto marked with the Expose decorator. -/
def userDtoExposedKeys : List String :=
  ["id", "name", "email", "isAdmin", "createdAt", "updatedAt"]

/-- C9: the projected output carries exactly the allow-listed keys — every
field of the projection is named by the allow-list, and for the UserDto
allow-list in particular no password field ever survives, whatever the
source value holds. -/
theorem C9_projection_respects_allowlist {α : Type}
    (exposedKeys : List String) (source : List (String × α)) :
    ((plainToClass exposedKeys source).map Prod.fst = exposedKeys) ∧
    (∀ k v, (k, v) ∈ plainToClass exposedKeys source → k ∈ exposedKeys) ∧
    (∀ v, ("password", v) ∉ plainToClass userDtoExposedKeys source) := by
  refine ⟨?_, ?_, ?_⟩
  · simp only [plainToClass, List.map_map]
    have hid : (Prod.fst ∘ fun k => ((k : String),
        (source.find? (fun p => p.1 == k)).map Prod.snd)) = id := by
      funext k
      rfl
    rw [hid, List.map_id]
  · intro k v hmem
    simp only [plainToClass, List.mem_map] at hmem
    obtain ⟨a, ha, heq⟩ := hmem
    obtain ⟨rfl, -⟩ := Prod.mk.injEq .. ▸ heq
    exact ha
  · intro v hmem
    simp only [plainToClass, List.mem_map] at hmem
    obtain ⟨a, ha, heq⟩ := hmem
    obtain ⟨rfl, -⟩ := Prod.mk.injEq .. ▸ heq
    revert ha
    decide

/-- Witness for C9: the password field of a source object does not appear
in the UserDto projection. -/
theorem C9_projection_respects_allowlist_witness :
    "id" ∈ userDtoExposedKeys ∧
    ("password", (some 3 : Option Nat)) ∉
      plainToClass userDtoExposedKeys [("password", (3 : Nat))] :=
  ⟨(C9_projection_respects_allowlist userDtoExposedKeys
      [("password", (3 : Nat))]).2.1 "id" none (by decide),
   (C9_projection_respects_allowlist userDtoExposedKeys
      [("password", (3 : Nat))]).2.2 (some 3)⟩

/-! ## Register handler (UsersController.createUser) -/

/-- The register request body (CreateUserDto). -/
structure CreateUserDto where
  name : String
  email : String
  password : String
deriving DecidableEq, Repr

/-- The five user fields the register handler copies into the response
data. -/
structure UserPublicData where
  id : Int
  name : String
  email : String
  createdAt : Int
  updatedAt : Int
deriving DecidableEq, Repr

/-- The data object the controller builds from a user entity. -/
def publicOf (u : StoredUser) : UserPublicData :=
  { id := u.id, name := u.name, email := u.email,
    createdAt := u.createdAt, updatedAt := u.updatedAt }

/-- The envelope the register handler returns: action label, success
flag, message, meta.affectedRows, the session userId echoed in meta when
the handler establishes it, and the public user data. -/
structure UserResponse where
  action : String
  success : Bool
  message : String
  affectedRows : Nat
  metaSessionUserId : Option Int
  data : UserPublicData
deriving DecidableEq, Repr

/-- UsersService.create: re-check email uniqueness (null on a hit), then
create and save the row; the store assigns the id (nextId parameter) and
the timestamps (now). -/
def usersServiceCreate (store : List StoredUser) (nextId now : Int)
    (data : CreateUserDto) : Option StoredUser × List StoredUser :=
  match findByEmail store data.email with
  | some _ => (none, store)
  | none =>
    let user : StoredUser :=
      { id := nextId, name := data.name, email := data.email,
        password := data.password, isAdmin := false,
        createdAt := now, updatedAt := now }
    (some user, store ++ [user])

/-- AuthService.signup: throw BadRequestException when the email is in
use, hash the password with a fresh salt, and create the user through
UsersService.create. -/
def authServiceSignup (kdf : String → String → List Nat) (salt : String)
    (store : List StoredUser) (nextId now : Int) (data : CreateUserDto) :
    Except HttpError (Option StoredUser × List StoredUser) :=
  match findByEmail store data.email with
  | some _ => .error (.badRequest "Email in use")
  | none =>
    .ok (usersServiceCreate store nextId now
      { data with password := hashPassword kdf salt data.password })

/-- The full observable outcome of the register handler: the returned
envelope or thrown exception, the store and session after the handler,
and whether AuthService.signup was invoked. -/
structure RegisterOutcome where
  response : Except HttpError UserResponse
  store : List StoredUser
  session : SessionData
  signupInvoked : Bool
deriving Repr

/-- The signup path of UsersController.createUser: run
AuthService.signup, throw BadRequestException when it yields no user,
otherwise set session.userId to the new user's id and return the
created-successfully envelope. -/
def registerNewUser (kdf : String → String → List Nat) (salt : String)
    (nextId now : Int) (store : List StoredUser) (session : SessionData)
    (body : CreateUserDto) : RegisterOutcome :=
  match authServiceSignup kdf salt store nextId now body with
  | .error e =>
    { response := .error e, store := store, session := session,
      signupInvoked := true }
  | .ok (none, store2) =>
    { response := .error (.badRequest "User could not be created"),
      store := store2, session := session, signupInvoked := true }
  | .ok (some newUser, store2) =>
    { response := .ok
        { action := "create User", success := true,
          message := "User " ++ newUser.name ++ " with email " ++ newUser.email
            ++ " has been created successfully",
          affectedRows := 1, metaSessionUserId := some newUser.id,
          data := publicOf newUser },
      store := store2, session := { userId := newUser.id },
      signupInvoked := true }

/-- UsersController.createUser, the register handler: when the session
carries a truthy positive userId whose user exists, return the
already-logged-in envelope built from that stored user without invoking
signup (the findOne lookup touches updatedAt); otherwise run the signup
path. -/
def usersControllerCreateUser (kdf : String → String → List Nat)
    (salt : String) (nextId now : Int) (store : List StoredUser)
    (session : SessionData) (body : CreateUserDto) : RegisterOutcome :=
  let loggedInUserId := session.userId
  if loggedInUserId ≠ 0 ∧ 0 < loggedInUserId then
    match findOne store now loggedInUserId with
    | (some loggedInUser, store2) =>
      { response := .ok
          { action := "create User", success := true,
            message := "User " ++ loggedInUser.name ++ " with email "
              ++ loggedInUser.email ++ " is already logged in",
            affectedRows := 1, metaSessionUserId := none,
            data := publicOf loggedInUser },
        store := store2, session := session, signupInvoked := false }
    | (none, store2) => registerNewUser kdf salt nextId now store2 session body
  else registerNewUser kdf salt nextId now store session body

/-- C10: a register request under a session whose positive userId matches
a stored user returns that user's data with success true, never invokes
signup, adds no record to the store (the id column is unchanged), leaves
the session as it was, and ignores the submitted body entirely. -/
theorem C10_register_with_live_session_returns_existing_user
    (kdf : String → String → List Nat) (salt : String) (nextId now : Int)
    (store : List StoredUser) (session : SessionData) (body : CreateUserDto)
    (u : StoredUser)
    (hpos : 0 < session.userId)
    (hfind : store.find? (fun v => v.id == session.userId) = some u) :
    (usersControllerCreateUser kdf salt nextId now store session body).response
      = .ok
        { action := "create User", success := true,
          message := "User " ++ u.name ++ " with email " ++ u.email
            ++ " is already logged in",
          affectedRows := 1, metaSessionUserId := none,
          data := { id := u.id, name := u.name, email := u.email,
                    createdAt := u.createdAt, updatedAt := now } } ∧
    (usersControllerCreateUser kdf salt nextId now store session body).signupInvoked
      = false ∧
    (usersControllerCreateUser kdf salt nextId now store session body).store.map
        (fun v => v.id) = store.map (fun v => v.id) ∧
    (usersControllerCreateUser kdf salt nextId now store session body).session
      = session ∧
    (∀ body2, usersControllerCreateUser kdf salt nextId now store session body2
      = usersControllerCreateUser kdf salt nextId now store session body) := by
  have hcond : session.userId ≠ 0 ∧ 0 < session.userId := ⟨by omega, hpos⟩
  have huid : u.id = session.userId := by
    simpa using List.find?_some hfind
  have hred : ∀ b : CreateUserDto,
      usersControllerCreateUser kdf salt nextId now store session b =
        { response := .ok
            { action := "create User", success := true,
              message := "User " ++ u.name ++ " with email "
                ++ u.email ++ " is already logged in",
              affectedRows := 1, metaSessionUserId := none,
              data := publicOf { u with updatedAt := now } },
          store := store.map (fun v =>
            if v.id == u.id then { u with updatedAt := now } else v),
          session := session, signupInvoked := false } := by
    intro b
    rw [usersControllerCreateUser]
    rw [if_pos hcond]
    rw [findOne, hfind]
  refine ⟨?_, ?_, ?_, ?_, ?_⟩
  · rw [hred body]
    simp [publicOf]
  · rw [hred body]
  · rw [hred body]
    simp only [List.map_map]
    apply List.map_congr_left
    intro v hv
    by_cases h : (v.id == u.id) = true
    · simp only [Function.comp_apply, h, if_true]
      exact (beq_iff_eq.mp h).symm
    · have h' : v.id ≠ u.id := by simpa using h
      simp [h']
  · rw [hred body]
  · intro body2
    rw [hred body, hred body2]

/-- Witness for C10: the handler applied to a store holding alice under
alice's session does not invoke signup. -/
theorem C10_register_with_live_session_returns_existing_user_witness :
    (usersControllerCreateUser kdfOracle "cd" 2 200 [aliceUser]
      { userId := 1 }
      { name := "bob", email := "bob@example.com", password := "pw" }).signupInvoked
      = false :=
  (C10_register_with_live_session_returns_existing_user kdfOracle "cd" 2 200
    [aliceUser] { userId := 1 }
    { name := "bob", email := "bob@example.com", password := "pw" }
    aliceUser (by decide) (by decide)).2.1

end CarPricing
